import Mathlib

/-!
Verification development for the compulife-proxy repository.

The repository is a stateless HTTP relay.  The core under study is its
parameter-translation and dispatch layer:

* `src/files/server.js` (current hub, v7.x): `buildCompulifeParams`,
  `proxyPublic` / `proxyPrivate`, the multiplexed `app.post("/")` router,
  the `/anthropic`, `/ghl/contacts` and `/ghl/opportunities` handlers.
* `src/unnamed/part_000` (earlier proxy/hub versions): `buildQuoteParams`,
  `buildHealthParams`, its multiplexed router with the enumerated
  `available` action list, and its `proxyPrivate`.

JavaScript request bodies are JSON objects; field values relevant to the
translation layer are primitives, modelled by `JsVal`.  Objects are
modelled as association lists of string keys (`Obj`), with `getKey`
(property read, first match) and `setKey` (property write: replace the
existing binding in place, else append — the JS object semantics that
preserves key order).  `spreadOnto src init` models the object literal
`{...init-fields, ...src}`: every key/value of `src` assigned onto `init`.
-/

namespace CompulifeProxy

/-- Primitive JavaScript values as they appear in the JSON request bodies
handled by the translation layer. -/
inductive JsVal where
  | vStr (s : String)
  | vNum (n : Int)
  | vBool (b : Bool)
  | vNull
  deriving DecidableEq, Repr

/-- JavaScript `String(v)` on primitive values (used by the builders'
`String(body[k])` and by template literals). -/
def JsVal.toStr : JsVal → String
  | .vStr s => s
  | .vNum n => toString n
  | .vBool true => "true"
  | .vBool false => "false"
  | .vNull => "null"

/-- JavaScript truthiness of a primitive value. -/
def JsVal.truthy : JsVal → Bool
  | .vStr s => s != ""
  | .vNum n => n != 0
  | .vBool b => b
  | .vNull => false

/-- A JavaScript object: ordered key/value bindings. -/
abbrev Obj := List (String × JsVal)

/-- Property read `o[k]`: the first binding with key `k`, if any
(JS objects have unique keys, so first match is the binding). -/
def getKey : Obj → String → Option JsVal
  | [], _ => none
  | (k', v) :: rest, k => if k' = k then some v else getKey rest k

/-- Property write `o[k] = v`: replace the existing binding in place,
otherwise append a new binding at the end (JS key-order semantics). -/
def setKey : Obj → String → JsVal → Obj
  | [], k, v => [(k, v)]
  | (k', v') :: rest, k, v =>
      if k' = k then (k', v) :: rest else (k', v') :: setKey rest k v

/-- `spreadOnto src init` assigns every binding of `src` onto `init`, in
order: the object literal `{...init-fields, ...src}`. -/
def spreadOnto : Obj → Obj → Obj
  | [], o => o
  | (k, v) :: rest, o => spreadOnto rest (setKey o k v)

/-- Truthiness of a possibly-absent value (`undefined` is falsy). -/
def truthyOpt : Option JsVal → Bool
  | some v => v.truthy
  | none => false

/-- JavaScript `a || b` on a possibly-absent left operand. -/
def jsOr (o : Option JsVal) (d : JsVal) : JsVal :=
  match o with
  | some v => if v.truthy then v else d
  | none => d

theorem getKey_setKey_self (o : Obj) (k : String) (v : JsVal) :
    getKey (setKey o k v) k = some v := by
  induction o with
  | nil => simp [setKey, getKey]
  | cons kv rest ih =>
    obtain ⟨k', v'⟩ := kv
    by_cases h : k' = k
    · simp [setKey, getKey, h]
    · simp [setKey, getKey, h, ih]

theorem getKey_setKey_ne (o : Obj) {k' k : String} (v : JsVal) (h : k' ≠ k) :
    getKey (setKey o k' v) k = getKey o k := by
  induction o with
  | nil => simp [setKey, getKey, h]
  | cons kv rest ih =>
    obtain ⟨k'', v''⟩ := kv
    by_cases h2 : k'' = k'
    · simp [setKey, getKey, h2, h]
    · by_cases h3 : k'' = k
      · simp [setKey, getKey, h2, h3, Ne.symm h]
      · simp [setKey, getKey, h2, h3, ih]

theorem getKey_spreadOnto_of_not_key (src : Obj) (o : Obj) {k : String}
    (h : ∀ kv ∈ src, kv.1 ≠ k) :
    getKey (spreadOnto src o) k = getKey o k := by
  induction src generalizing o with
  | nil => simp [spreadOnto]
  | cons kv rest ih =>
    obtain ⟨k', v'⟩ := kv
    have hk : k' ≠ k := h (k', v') (by simp)
    rw [spreadOnto, ih _ (fun kv hm => h kv (by simp [hm]))]
    exact getKey_setKey_ne o v' hk

theorem keys_ne_of_getKey_none (o : Obj) {k : String}
    (h : getKey o k = none) : ∀ kv ∈ o, kv.1 ≠ k := by
  induction o with
  | nil => simp
  | cons kv rest ih =>
    obtain ⟨k', v'⟩ := kv
    rw [getKey] at h
    by_cases hk : k' = k
    · simp [hk] at h
    · intro kv hm
      rcases List.mem_cons.mp hm with hh | ht
      · subst hh; exact hk
      · exact ih (by simpa [hk] using h) kv ht

/-- The copy loop shared by all parameter builders:
`for (const k of fields) { if (body[k] !== undefined) params[k] = String(body[k]); }`. -/
def copyFields : List String → Obj → Obj → Obj
  | [], _, p => p
  | f :: fs, body, p =>
      match getKey body f with
      | some v => copyFields fs body (setKey p f (.vStr v.toStr))
      | none => copyFields fs body p

/-- The complete whitelist of `buildCompulifeParams` in `src/files/server.js`
(lines 286–320), in source order; `"CholesterolMedication"` appears twice
there and is kept twice here. -/
def compulifeFields : List String :=
  ["State", "BirthMonth", "Birthday", "BirthYear", "Sex", "Smoker", "Health",
   "NewCategory", "FaceAmount", "ModeUsed",
   "Province", "Birthdate", "Premium", "Mode", "TermPeriod", "Plan",
   "TableRating", "InquiryType", "ResultType", "NumberOfCompanies",
   "DisplayFlags", "DropCompanies",
   "ZipCode", "COMPINC", "PRODDIS", "CompRating", "SortOverride1",
   "ErrOnMissingZipCode", "MaxNumResults", "LANGUAGE",
   "Alcohol", "AlcoholYearsSinceTreatment",
   "Asthma", "AsthmaRegularMedication",
   "BloodPressure", "BloodPressureMedication", "BPSystolic", "BPDiastolic",
   "Cancer", "CancerType", "CancerYearsSinceTreatment",
   "Cholesterol", "CholesterolMedication", "CholesterolReading",
   "Diabetes", "DiabetesType", "DiabetesA1CReading",
   "HeartDisease", "HeartType", "HeartYearsSinceTreatment",
   "Depression", "DepressionYearsSinceTreatment",
   "Drugs", "DrugsYearsSinceTreatment",
   "EmbeddedAccums", "EmbeddedAccumColor", "NoRedX",
   "DoSmokingTobacco", "DoCigarettes", "PeriodCigarettes", "NumCigarettes",
   "DoCigars", "PeriodCigars", "NumCigars", "DoPipe", "PeriodPipe",
   "DoChewingTobacco", "PeriodChewingTobacco",
   "DoNicotinePatchesOrGum", "PeriodNicotinePatchesOrGum",
   "DoHeightWeight", "Weight", "Feet", "Inches",
   "DoBloodPressure", "Systolic", "Dystolic",
   "DoCholesterol", "CholesterolLevel", "HDLRatio", "CholesterolMedication",
   "DoDriving", "HadDriversLicense", "RecklessConviction", "DwiConviction",
   "SuspendedConviction", "MoreThanOneAccident",
   "DoFamily", "NumDeaths", "NumContracted",
   "DoSubAbuse"]

/-- `buildCompulifeParams` of `src/files/server.js`: whitelist copy only,
no defaults. -/
def buildCompulifeParams (body : Obj) : Obj :=
  copyFields compulifeFields body []

/-- The `required` list of `buildQuoteParams` in `src/unnamed/part_000`
(both copies, lines 124–127 and 480–483). -/
def quoteRequiredFields : List String :=
  ["State", "BirthMonth", "Birthday", "BirthYear",
   "Sex", "Smoker", "Health", "NewCategory", "FaceAmount", "ModeUsed"]

/-- The `optional` list of `buildQuoteParams` in `src/unnamed/part_000`
(lines 131–134 and 487–490). -/
def quoteOptionalFields : List String :=
  ["ZipCode", "COMPINC", "PRODDIS", "CompRating",
   "SortOverride1", "ErrOnMissingZipCode", "MaxNumResults", "LANGUAGE"]

/-- `if (!params[k]) params[k] = dv;` — the defaulting statement of
`buildQuoteParams`: applied when the stored value is absent or falsy
(for stored strings, falsy means the empty string). -/
def applyDefault (p : Obj) (k dv : String) : Obj :=
  if truthyOpt (getKey p k) then p else setKey p k (.vStr dv)

/-- `buildQuoteParams` of `src/unnamed/part_000`: required and optional
whitelist copies followed by the three defaulting statements. -/
def buildQuoteParams (body : Obj) : Obj :=
  let p := copyFields quoteRequiredFields body []
  let p := copyFields quoteOptionalFields body p
  let p := applyDefault p "CompRating" "4"
  let p := applyDefault p "SortOverride1" "A"
  applyDefault p "LANGUAGE" "E"

/-- The `healthFields` list of `buildHealthParams` in `src/unnamed/part_000`
(lines 146–168 and 502–524), in source order. -/
def healthFields : List String :=
  ["DoSmokingTobacco", "DoCigarettes", "PeriodCigarettes", "NumCigarettes",
   "DoCigars", "PeriodCigars", "NumCigars",
   "DoPipe", "PeriodPipe",
   "DoChewingTobacco", "PeriodChewingTobacco",
   "DoNicotinePatchesOrGum", "PeriodNicotinePatchesOrGum",
   "DoHeightWeight", "Weight", "Feet", "Inches",
   "DoBloodPressure", "Systolic", "Dystolic", "BloodPressureMedication",
   "DoCholesterol", "CholesterolLevel", "HDLRatio",
   "CholesterolMedication", "PeriodCholesterol", "PeriodCholesterolControlDuration",
   "DoDriving", "HadDriversLicense",
   "MovingViolations0", "MovingViolations1", "MovingViolations2",
   "MovingViolations3", "MovingViolations4",
   "RecklessConviction", "DwiConviction", "SuspendedConviction", "MoreThanOneAccident",
   "PeriodRecklessConviction", "PeriodDwiConviction",
   "PeriodSuspendedConviction", "PeriodMoreThanOneAccident",
   "DoFamily", "NumDeaths", "NumContracted",
   "AgeDied00", "AgeContracted00", "IsParent00", "CVD00", "ColonCancer00",
   "AgeContracted10", "IsParent10", "CVD10", "ColonCancer10",
   "DoSubAbuse", "Alcohol", "AlcYearsSinceTreatment",
   "Drugs", "DrugsYearsSinceTreatment",
   "EmbeddedAccums", "EmbeddedAccumColor", "NoRedX"]

/-- `buildHealthParams` of `src/unnamed/part_000`: the base quote
translation extended by the health-field whitelist copy. -/
def buildHealthParams (body : Obj) : Obj :=
  copyFields healthFields body (buildQuoteParams body)

/-- The payload construction of `proxyPrivate` in `src/files/server.js`
(line 334): `{ COMPULIFEAUTHORIZATIONID: AUTH_ID, REMOTE_IP, ...params }`.
The configured credentials come first; the spread then assigns every
translated field onto them. -/
def attachCredentials (authId remoteIp : String) (params : Obj) : Obj :=
  spreadOnto params
    [("COMPULIFEAUTHORIZATIONID", .vStr authId), ("REMOTE_IP", .vStr remoteIp)]

theorem copyFields_getKey_of_not_mem {fs : List String} (body p : Obj)
    {k : String} (h : k ∉ fs) :
    getKey (copyFields fs body p) k = getKey p k := by
  induction fs generalizing p with
  | nil => simp [copyFields]
  | cons f fs ih =>
    have hkf : f ≠ k := fun hh => h (by simp [hh])
    have htl : k ∉ fs := fun hh => h (by simp [hh])
    cases hb : getKey body f with
    | none => rw [copyFields, hb, ih _ htl]
    | some v => rw [copyFields, hb, ih _ htl, getKey_setKey_ne p _ hkf]

theorem copyFields_getKey_of_body_none {fs : List String} (body p : Obj)
    {k : String} (h : getKey body k = none) :
    getKey (copyFields fs body p) k = getKey p k := by
  induction fs generalizing p with
  | nil => simp [copyFields]
  | cons f fs ih =>
    cases hb : getKey body f with
    | none => rw [copyFields, hb, ih]
    | some v =>
      have hkf : f ≠ k := by
        intro hh
        rw [hh, h] at hb
        exact Option.noConfusion hb
      rw [copyFields, hb, ih, getKey_setKey_ne p _ hkf]

theorem copyFields_getKey_of_mem {fs : List String} (body p : Obj)
    {k : String} {v : JsVal} (hm : k ∈ fs) (hb : getKey body k = some v) :
    getKey (copyFields fs body p) k = some (.vStr v.toStr) := by
  induction fs generalizing p with
  | nil => exact absurd hm (List.not_mem_nil k)
  | cons f fs ih =>
    by_cases hkf : k = f
    · subst hkf
      rw [copyFields, hb]
      by_cases htl : k ∈ fs
      · exact ih _ htl
      · rw [copyFields_getKey_of_not_mem body _ htl, getKey_setKey_self]
    · have htl : k ∈ fs := by
        rcases List.mem_cons.mp hm with hh | ht
        · exact absurd hh hkf
        · exact ht
      cases hbf : getKey body f with
      | none => rw [copyFields, hbf]; exact ih _ htl
      | some w => rw [copyFields, hbf]; exact ih _ htl

/-- What a pure whitelist copy yields at key `k`: the stringified inbound
value when `k` is whitelisted, nothing otherwise. -/
def copiedAt (fs : List String) (body : Obj) (k : String) : Option JsVal :=
  if k ∈ fs then (getKey body k).map (fun v => JsVal.vStr v.toStr) else none

/-- The three defaulting statements of `buildQuoteParams`, as a table:
the default value the builder may store at key `k`, if any. -/
def defaultFor (k : String) : Option String :=
  if k = "CompRating" then some "4"
  else if k = "SortOverride1" then some "A"
  else if k = "LANGUAGE" then some "E"
  else none

/-- Full characterization of `buildQuoteParams` at key `k`: the whitelist
copy, except that each of the three defaulted keys receives its default
whenever the copied value is absent or falsy (the empty string). -/
def quoteExpected (body : Obj) (k : String) : Option JsVal :=
  match defaultFor k with
  | some dv =>
      if truthyOpt (copiedAt (quoteRequiredFields ++ quoteOptionalFields) body k)
      then copiedAt (quoteRequiredFields ++ quoteOptionalFields) body k
      else some (.vStr dv)
  | none => copiedAt (quoteRequiredFields ++ quoteOptionalFields) body k

theorem applyDefault_getKey_ne (p : Obj) {k dv k' : String} (h : k ≠ k') :
    getKey (applyDefault p k dv) k' = getKey p k' := by
  unfold applyDefault
  by_cases ht : truthyOpt (getKey p k)
  · rw [if_pos ht]
  · rw [if_neg ht, getKey_setKey_ne p _ h]

theorem applyDefault_getKey_self (p : Obj) (k dv : String) :
    getKey (applyDefault p k dv) k =
      if truthyOpt (getKey p k) then getKey p k else some (.vStr dv) := by
  unfold applyDefault
  by_cases ht : truthyOpt (getKey p k)
  · rw [if_pos ht, if_pos ht]
  · rw [if_neg ht, if_neg ht, getKey_setKey_self]

/-- The two whitelist copies of `buildQuoteParams`, characterized at any
key: together they behave as one copy over the concatenated whitelist. -/
theorem quoteCopies_getKey (body : Obj) (k : String) :
    getKey (copyFields quoteOptionalFields body
        (copyFields quoteRequiredFields body [])) k =
      copiedAt (quoteRequiredFields ++ quoteOptionalFields) body k := by
  cases hb : getKey body k with
  | none =>
    rw [copyFields_getKey_of_body_none body _ hb,
        copyFields_getKey_of_body_none body _ hb]
    simp [copiedAt, hb, getKey]
  | some v =>
    by_cases hopt : k ∈ quoteOptionalFields
    · rw [copyFields_getKey_of_mem body _ hopt hb]
      simp [copiedAt, List.mem_append, hopt, hb]
    · by_cases hreq : k ∈ quoteRequiredFields
      · rw [copyFields_getKey_of_not_mem body _ hopt,
            copyFields_getKey_of_mem body _ hreq hb]
        simp [copiedAt, List.mem_append, hreq, hb]
      · rw [copyFields_getKey_of_not_mem body _ hopt,
            copyFields_getKey_of_not_mem body _ hreq]
        simp [copiedAt, List.mem_append, hreq, hopt, getKey]

/-- Full characterization of `buildQuoteParams` at any key. -/
theorem buildQuoteParams_getKey (body : Obj) (k : String) :
    getKey (buildQuoteParams body) k = quoteExpected body k := by
  unfold buildQuoteParams quoteExpected
  by_cases h1 : k = "CompRating"
  · subst h1
    rw [applyDefault_getKey_ne _ (by decide), applyDefault_getKey_ne _ (by decide),
        applyDefault_getKey_self]
    rw [quoteCopies_getKey]
    rfl
  · by_cases h2 : k = "SortOverride1"
    · subst h2
      rw [applyDefault_getKey_ne _ (by decide), applyDefault_getKey_self,
          applyDefault_getKey_ne _ (by decide)]
      rw [quoteCopies_getKey]
      rfl
    · by_cases h3 : k = "LANGUAGE"
      · subst h3
        rw [applyDefault_getKey_self, applyDefault_getKey_ne _ (by decide),
            applyDefault_getKey_ne _ (by decide)]
        rw [quoteCopies_getKey]
        rfl
      · rw [applyDefault_getKey_ne _ (fun hh => h3 hh.symm),
            applyDefault_getKey_ne _ (fun hh => h2 hh.symm),
            applyDefault_getKey_ne _ (fun hh => h1 hh.symm)]
        rw [quoteCopies_getKey]
        simp [defaultFor, h1, h2, h3]

/-- Full characterization of `buildCompulifeParams` at any key. -/
theorem buildCompulifeParams_getKey (body : Obj) (k : String) :
    getKey (buildCompulifeParams body) k = copiedAt compulifeFields body k := by
  unfold buildCompulifeParams
  by_cases hm : k ∈ compulifeFields
  · cases hb : getKey body k with
    | none =>
      rw [copyFields_getKey_of_body_none body _ hb]
      simp [copiedAt, hm, hb, getKey]
    | some v =>
      rw [copyFields_getKey_of_mem body _ hm hb]
      simp [copiedAt, hm, hb]
  · rw [copyFields_getKey_of_not_mem body _ hm]
    simp [copiedAt, hm, getKey]

/-- The credential injection preserves its two configured fields whenever
the translated parameter map binds neither credential name. -/
theorem attachCredentials_getKey_creds (authId remoteIp : String) (params : Obj)
    (h1 : getKey params "COMPULIFEAUTHORIZATIONID" = none)
    (h2 : getKey params "REMOTE_IP" = none) :
    getKey (attachCredentials authId remoteIp params) "COMPULIFEAUTHORIZATIONID" =
      some (.vStr authId) ∧
    getKey (attachCredentials authId remoteIp params) "REMOTE_IP" =
      some (.vStr remoteIp) := by
  unfold attachCredentials
  constructor
  · rw [getKey_spreadOnto_of_not_key params _ (keys_ne_of_getKey_none params h1)]
    simp [getKey]
  · rw [getKey_spreadOnto_of_not_key params _ (keys_ne_of_getKey_none params h2)]
    simp [getKey]

/-- Neither credential name occurs in any of the builders' whitelists, nor
among the defaulted keys. -/
theorem creds_not_whitelisted :
    "COMPULIFEAUTHORIZATIONID" ∉ compulifeFields ∧
    "REMOTE_IP" ∉ compulifeFields ∧
    "COMPULIFEAUTHORIZATIONID" ∉ quoteRequiredFields ++ quoteOptionalFields ∧
    "REMOTE_IP" ∉ quoteRequiredFields ++ quoteOptionalFields ∧
    "COMPULIFEAUTHORIZATIONID" ∉ healthFields ∧
    "REMOTE_IP" ∉ healthFields ∧
    defaultFor "COMPULIFEAUTHORIZATIONID" = none ∧
    defaultFor "REMOTE_IP" = none := by
  decide

/-- An outbound Compulife call selected by the multiplexed router.
`publicGetSeg base seg` stands for a GET on `base ++ encodeURIComponent(seg)`;
the raw segment is kept, since URL escaping is a host primitive outside the
translation layer. -/
inductive Downstream where
  | publicGet (path : String)
  | publicGetSeg (base : String) (seg : String)
  | privateGet (path : String) (payload : Obj)
  deriving DecidableEq

/-- The observable outcome of the multiplexed `POST /` router, before any
downstream response arrives: an immediate 200 ping payload, an immediate
400 error (either the bare message form of `server.js`, or the enumerated
form of `part_000` whose body carries the `action` value and the
`available` list), or a downstream call. -/
inductive RouteOutcome where
  | pingOk
  | call (d : Downstream)
  | err400 (msg : String)
  | err400Enum (shown : JsVal) (available : List String)
  deriving DecidableEq

/-- The HTTP status the router determines by itself (`none` when the
status will come from handling the downstream response). -/
def statusOf : RouteOutcome → Option Nat
  | .pingOk => some 200
  | .call _ => none
  | .err400 _ => some 400
  | .err400Enum _ _ => some 400

/-- The downstream call an outcome performs, if any. -/
def downstreamOf : RouteOutcome → Option Downstream
  | .call d => some d
  | _ => none

/-- The enumerated `available` action list in the 400 body, if the body
has one. -/
def enumeratedOf : RouteOutcome → Option (List String)
  | .err400Enum _ av => some av
  | _ => none

/-- `const action = (req.body || {}).action || "ping"`. -/
def actionOf (body : Obj) : JsVal :=
  jsOr (getKey body "action") (.vStr "ping")

/-- The case labels of the `switch` in `app.post("/")` of
`src/files/server.js` (lines 260–275). -/
def serverActions : List String :=
  ["ping", "get-categories", "get-companies", "get-products",
   "quote-sidebyside", "quote-compare"]

/-- The `available` list in the unknown-action 400 body of
`src/unnamed/part_000` (lines 104–109 and 351–356). -/
def proxyAvailable : List String :=
  ["ping",
   "get-states", "get-provinces", "get-logos", "get-companies",
   "get-categories", "get-company-products",
   "quote-compare", "quote-sidebyside", "quote-health"]

/-- The multiplexed `app.post("/")` of `src/files/server.js`
(lines 257–280), with the configured credentials passed in explicitly. -/
def handlePost (authId remoteIp : String) (body : Obj) : RouteOutcome :=
  let action := actionOf body
  if action = .vStr "ping" then .pingOk
  else if action = .vStr "get-categories" then .call (.publicGet "/CategoryList")
  else if action = .vStr "get-companies" then
    .call (.publicGetSeg "/CompanyList/"
      (JsVal.toStr (jsOr (getKey body "category") (.vStr "Life"))))
  else if action = .vStr "get-products" then
    match getKey body "company" with
    | some v =>
        if v.truthy then .call (.publicGetSeg "/ProductList/" v.toStr)
        else .err400 "company required"
    | none => .err400 "company required"
  else if action = .vStr "quote-sidebyside" then
    .call (.privateGet "/sidebyside"
      (attachCredentials authId remoteIp (buildCompulifeParams body)))
  else if action = .vStr "quote-compare" then
    .call (.privateGet "/sidebyside"
      (attachCredentials authId remoteIp (buildCompulifeParams body)))
  else .err400 ("Unknown action: " ++ action.toStr)

/-- The multiplexed `app.post("/")` of `src/unnamed/part_000` (the hub
copy, lines 283–363; the first copy, lines 37–116, has the same routing
shape and the same unknown-action body). -/
def routeProxy (authId remoteIp : String) (body : Obj) : RouteOutcome :=
  let action := actionOf body
  if action = .vStr "ping" then .pingOk
  else if action = .vStr "get-states" then .call (.publicGet "/StateList")
  else if action = .vStr "get-provinces" then .call (.publicGet "/ProvinceList")
  else if action = .vStr "get-logos" then
    let size := jsOr (getKey body "size") (.vStr "small")
    let country := jsOr (getKey body "country") (.vStr "us")
    let base := if country = .vStr "canada"
      then "/CompanyLogoListCanada" else "/CompanyLogoList"
    .call (.publicGet (if size = .vStr "default" then base
      else base ++ "/" ++ size.toStr))
  else if action = .vStr "get-companies" then
    let country := jsOr (getKey body "country") (.vStr "us")
    .call (.publicGet (if country = .vStr "canada"
      then "/CompanyListCanada" else "/CompanyList"))
  else if action = .vStr "get-categories" then
    .call (.privateGet "/CategoryList" (attachCredentials authId remoteIp []))
  else if action = .vStr "get-company-products" then
    let params : Obj :=
      match getKey body "COMPINC" with
      | some v => if v.truthy then [("COMPINC", v)] else []
      | none => []
    .call (.privateGet "/CompanyProductList"
      (attachCredentials authId remoteIp params))
  else if action = .vStr "quote-compare" then
    .call (.privateGet "/request"
      (attachCredentials authId remoteIp (buildQuoteParams body)))
  else if action = .vStr "quote-sidebyside" then
    .call (.privateGet "/sidebyside"
      (attachCredentials authId remoteIp (buildQuoteParams body)))
  else if action = .vStr "quote-health" then
    .call (.privateGet "/request"
      (attachCredentials authId remoteIp (buildHealthParams body)))
  else .err400Enum action proxyAvailable

/-- The outcome of `app.post("/anthropic")` in `src/files/server.js`
(lines 346–360), up to the decision whether and with what payload to call
the AI API. -/
inductive AnthropicOutcome where
  | notConfigured
  | imageRequired
  | forwardPassthrough (body : Obj)
  | forwardImage (image mediaType prompt : JsVal)
  deriving DecidableEq

/-- `app.post("/anthropic")` of `src/files/server.js`: credential guard,
passthrough detection, then the simplified image form. -/
def anthropicHandler (apiKey : String) (body : Obj) : AnthropicOutcome :=
  if apiKey = "" then .notConfigured
  else if truthyOpt (getKey body "model") && truthyOpt (getKey body "messages") then
    .forwardPassthrough body
  else
    match getKey body "image" with
    | some img =>
        if img.truthy then
          .forwardImage img
            (jsOr (getKey body "media_type") (.vStr "image/png"))
            (jsOr (getKey body "prompt")
              (.vStr "Extract all text from this lead card. Return JSON."))
        else .imageRequired
    | none => .imageRequired

/-- The immediate response of an anthropic outcome that makes no network
call: its HTTP status and error message (`none` when the handler forwards
to the AI API). -/
def anthropicImmediate : AnthropicOutcome → Option (Nat × String)
  | .notConfigured => some (500, "ANTHROPIC_API_KEY not configured")
  | .imageRequired => some (400, "image (base64) required")
  | _ => none

/-- Outbound CRM body of `app.post("/ghl/contacts")` in
`src/files/server.js` (line 213): `{ ...req.body, locationId: GHL_LOCATION_ID }`. -/
def ghlContactsOutbound (locationId : String) (body : Obj) : Obj :=
  setKey (spreadOnto body []) "locationId" (.vStr locationId)

/-- Outbound CRM body of `app.post("/ghl/opportunities")` in
`src/files/server.js` (line 251): `{ ...req.body, locationId: GHL_LOCATION_ID }`. -/
def ghlOpportunitiesOutbound (locationId : String) (body : Obj) : Obj :=
  setKey (spreadOnto body []) "locationId" (.vStr locationId)

/-- Structured JSON data, as produced by a successful `JSON.parse`. -/
inductive Json where
  | jNull
  | jBool (b : Bool)
  | jNum (n : Int)
  | jStr (s : String)
  | jArr (xs : List Json)
  | jObj (fields : List (String × Json))

/-- A downstream HTTP response as the dispatchers see it: status code and
full body text. -/
structure FetchResponse where
  status : Nat
  text : String

/-- What a Compulife dispatcher returns to the router: the parsed
structure, or the `{ raw, status }` wrapper. -/
inductive DispatchResult where
  | structured (j : Json)
  | rawWrap (raw : String) (status : Nat)

/-- Response handling of `proxyPublic` in `src/files/server.js`
(lines 329–330): `try { return JSON.parse(t); } catch { return { raw: t,
status: r.status }; }`.  `JSON.parse` is a host primitive; it is passed
in as a parse oracle, `none` modelling the thrown-and-caught parse error.
The function is total: the catch branch always yields a value. -/
def proxyPublicResult (parse : String → Option Json) (resp : FetchResponse) :
    DispatchResult :=
  match parse resp.text with
  | some j => .structured j
  | none => .rawWrap resp.text resp.status

/-- Response handling of `proxyPrivate` in `src/files/server.js`
(lines 339–340), identical to `proxyPublic`. -/
def proxyPrivateResult (parse : String → Option Json) (resp : FetchResponse) :
    DispatchResult :=
  match parse resp.text with
  | some j => .structured j
  | none => .rawWrap resp.text resp.status

/-- A concrete parse oracle used to instantiate dispatcher theorems: it
recognizes exactly the body `"null"`. -/
def parseNullOnly : String → Option Json :=
  fun s => if s = "null" then some .jNull else none

/-- The spec's example end-to-end inbound body for the quoting action. -/
def exampleQuoteBody : Obj :=
  [("action", .vStr "quote-compare"),
   ("State", .vStr "MS"), ("BirthMonth", .vStr "6"), ("Birthday", .vStr "15"),
   ("BirthYear", .vStr "1967"), ("Sex", .vStr "M"), ("Smoker", .vStr "N"),
   ("Health", .vStr "PP"), ("NewCategory", .vStr "5"),
   ("FaceAmount", .vStr "250000"), ("ModeUsed", .vStr "M")]

/-- The translated parameter map never binds either credential name. -/
theorem bc_no_creds (body : Obj) :
    getKey (buildCompulifeParams body) "COMPULIFEAUTHORIZATIONID" = none ∧
    getKey (buildCompulifeParams body) "REMOTE_IP" = none := by
  rw [buildCompulifeParams_getKey, buildCompulifeParams_getKey]
  constructor
  · rw [copiedAt, if_neg creds_not_whitelisted.1]
  · rw [copiedAt, if_neg creds_not_whitelisted.2.1]

/-- C1 — corrected.  The claim's key-set invariant is exact: the outbound
map of `buildCompulifeParams` binds a key iff it is whitelisted and defined
inbound, with the stringified inbound value, and `buildQuoteParams` behaves
the same on its whitelist except that each of the three defaulted keys
receives its default whenever the copied value is absent or stringifies to
the empty string (not only when absent, as the claim states); no key
outside the whitelists (plus the three default keys) ever appears. -/
theorem c1_whitelist_exactness (body : Obj) (k : String) :
    getKey (buildCompulifeParams body) k = copiedAt compulifeFields body k ∧
    getKey (buildQuoteParams body) k = quoteExpected body k ∧
    (k ∉ compulifeFields → getKey (buildCompulifeParams body) k = none) ∧
    (k ∉ quoteRequiredFields ++ quoteOptionalFields → defaultFor k = none →
      getKey (buildQuoteParams body) k = none) := by
  refine ⟨buildCompulifeParams_getKey body k, buildQuoteParams_getKey body k, ?_, ?_⟩
  · intro hm
    rw [buildCompulifeParams_getKey, copiedAt, if_neg hm]
  · intro hm hd
    rw [buildQuoteParams_getKey]
    unfold quoteExpected
    rw [hd, copiedAt, if_neg hm]

/-- C1 — witness: a non-whitelisted inbound key never reaches the outbound
map. -/
theorem c1_whitelist_exactness_witness :
    "evil" ∉ compulifeFields ∧
    getKey (buildCompulifeParams [("evil", JsVal.vStr "x")]) "evil" = none :=
  ⟨by decide, (c1_whitelist_exactness [("evil", JsVal.vStr "x")] "evil").2.2.1 (by decide)⟩

/-- C1 — counterexample to the claim as stated: `SortOverride1` is in the
quote whitelist and defined inbound (as the empty string), yet the outbound
value is the default `"A"`, not the string representation `""` of the
inbound value — so the defaults are not confined to keys absent from the
inbound body. -/
theorem c1_counterexample :
    "SortOverride1" ∈ quoteOptionalFields ∧
    getKey [("SortOverride1", JsVal.vStr "")] "SortOverride1" = some (JsVal.vStr "") ∧
    getKey (buildQuoteParams [("SortOverride1", JsVal.vStr "")]) "SortOverride1" =
      some (JsVal.vStr "A") ∧
    getKey (buildQuoteParams [("SortOverride1", JsVal.vStr "")]) "SortOverride1" ≠
      some (JsVal.vStr ((JsVal.vStr "").toStr)) := by
  decide

/-- C2 — confirmed.  Every private Compulife payload built by
`src/files/server.js` binds `COMPULIFEAUTHORIZATIONID` and `REMOTE_IP` to
the configured values, identically for any two inbound bodies (including
bodies that contain same-named keys, quantified over all bodies here),
because neither credential name is whitelisted. -/
theorem c2_credentials_fixed (authId remoteIp : String) (b1 b2 : Obj) :
    getKey (attachCredentials authId remoteIp (buildCompulifeParams b1))
      "COMPULIFEAUTHORIZATIONID" = some (.vStr authId) ∧
    getKey (attachCredentials authId remoteIp (buildCompulifeParams b1))
      "REMOTE_IP" = some (.vStr remoteIp) ∧
    getKey (attachCredentials authId remoteIp (buildCompulifeParams b1))
        "COMPULIFEAUTHORIZATIONID" =
      getKey (attachCredentials authId remoteIp (buildCompulifeParams b2))
        "COMPULIFEAUTHORIZATIONID" ∧
    getKey (attachCredentials authId remoteIp (buildCompulifeParams b1))
        "REMOTE_IP" =
      getKey (attachCredentials authId remoteIp (buildCompulifeParams b2))
        "REMOTE_IP" ∧
    "COMPULIFEAUTHORIZATIONID" ∉ compulifeFields ∧
    "REMOTE_IP" ∉ compulifeFields := by
  have h1 := attachCredentials_getKey_creds authId remoteIp (buildCompulifeParams b1)
    (bc_no_creds b1).1 (bc_no_creds b1).2
  have h2 := attachCredentials_getKey_creds authId remoteIp (buildCompulifeParams b2)
    (bc_no_creds b2).1 (bc_no_creds b2).2
  exact ⟨h1.1, h1.2, h1.1.trans h2.1.symm, h1.2.trans h2.2.symm,
    creds_not_whitelisted.1, creds_not_whitelisted.2.1⟩

/-- C3 — corrected.  For each defaulted key of the quoting translation,
the default applies iff the key is absent from the inbound body or its
stringified value is the empty string; any other inbound value (including
falsy `0` or `false`, which stringify to the truthy `"0"` and `"false"`)
passes through stringified, unchanged. -/
theorem c3_default_rule (body : Obj) (k dv : String) (h : defaultFor k = some dv) :
    getKey (buildQuoteParams body) k =
      match getKey body k with
      | none => some (JsVal.vStr dv)
      | some v => if v.toStr = "" then some (.vStr dv) else some (.vStr v.toStr) := by
  have hmem : k ∈ quoteRequiredFields ++ quoteOptionalFields := by
    unfold defaultFor at h
    by_cases h1 : k = "CompRating"
    · subst h1; decide
    · rw [if_neg h1] at h
      by_cases h2 : k = "SortOverride1"
      · subst h2; decide
      · rw [if_neg h2] at h
        by_cases h3 : k = "LANGUAGE"
        · subst h3; decide
        · rw [if_neg h3] at h; exact absurd h (by simp)
  rw [buildQuoteParams_getKey]
  unfold quoteExpected
  rw [h]
  rw [copiedAt, if_pos hmem]
  cases hb : getKey body k with
  | none => simp [truthyOpt]
  | some v =>
    by_cases he : v.toStr = ""
    · simp [truthyOpt, JsVal.truthy, he]
    · simp [truthyOpt, JsVal.truthy, he]

/-- C3 — witness: the empty inbound body receives the default rating
code. -/
theorem c3_default_rule_witness :
    defaultFor "CompRating" = some "4" ∧
    getKey (buildQuoteParams []) "CompRating" = some (JsVal.vStr "4") :=
  ⟨rfl, c3_default_rule [] "CompRating" "4" rfl⟩

/-- C3 — counterexample to the claim as stated: `CompRating` present
inbound with the falsy empty-string value is not passed through unchanged;
the default `"4"` replaces it. -/
theorem c3_counterexample :
    getKey [("CompRating", JsVal.vStr "")] "CompRating" = some (JsVal.vStr "") ∧
    getKey (buildQuoteParams [("CompRating", JsVal.vStr "")]) "CompRating" =
      some (JsVal.vStr "4") ∧
    getKey (buildQuoteParams [("CompRating", JsVal.vStr "")]) "CompRating" ≠
      some (JsVal.vStr ((JsVal.vStr "").toStr)) := by
  decide

/-- C4 — corrected.  For the spec's example body, the `server.js` pipeline
(the one the claim cites) embeds exactly the ten supplied fields plus the
two credential fields — twelve keys, in source order, with no defaulted
fields, since `buildCompulifeParams` applies no defaults; the fifteen-key
payload (ten fields, three defaults, two credentials) arises only under the
`part_000` hub pipeline, whose quote actions use `buildQuoteParams`. -/
theorem c4_example_payload (authId remoteIp : String) :
    handlePost authId remoteIp exampleQuoteBody =
      .call (.privateGet "/sidebyside"
        (attachCredentials authId remoteIp (buildCompulifeParams exampleQuoteBody))) ∧
    attachCredentials authId remoteIp (buildCompulifeParams exampleQuoteBody) =
      [("COMPULIFEAUTHORIZATIONID", .vStr authId), ("REMOTE_IP", .vStr remoteIp),
       ("State", .vStr "MS"), ("BirthMonth", .vStr "6"), ("Birthday", .vStr "15"),
       ("BirthYear", .vStr "1967"), ("Sex", .vStr "M"), ("Smoker", .vStr "N"),
       ("Health", .vStr "PP"), ("NewCategory", .vStr "5"),
       ("FaceAmount", .vStr "250000"), ("ModeUsed", .vStr "M")] ∧
    routeProxy authId remoteIp exampleQuoteBody =
      .call (.privateGet "/request"
        (attachCredentials authId remoteIp (buildQuoteParams exampleQuoteBody))) ∧
    attachCredentials authId remoteIp (buildQuoteParams exampleQuoteBody) =
      [("COMPULIFEAUTHORIZATIONID", .vStr authId), ("REMOTE_IP", .vStr remoteIp),
       ("State", .vStr "MS"), ("BirthMonth", .vStr "6"), ("Birthday", .vStr "15"),
       ("BirthYear", .vStr "1967"), ("Sex", .vStr "M"), ("Smoker", .vStr "N"),
       ("Health", .vStr "PP"), ("NewCategory", .vStr "5"),
       ("FaceAmount", .vStr "250000"), ("ModeUsed", .vStr "M"),
       ("CompRating", .vStr "4"), ("SortOverride1", .vStr "A"),
       ("LANGUAGE", .vStr "E")] :=
  ⟨rfl, rfl, rfl, rfl⟩

/-- C4 — counterexample to the claim as stated: under the cited
`server.js` path the embedded payload for the example body has twelve
keys, not fifteen, and contains none of the three defaulted fields. -/
theorem c4_counterexample :
    (attachCredentials "authid" "remoteip" (buildCompulifeParams exampleQuoteBody)).length
      = 12 ∧
    getKey (attachCredentials "authid" "remoteip" (buildCompulifeParams exampleQuoteBody))
      "SortOverride1" = none ∧
    getKey (attachCredentials "authid" "remoteip" (buildCompulifeParams exampleQuoteBody))
      "CompRating" = none ∧
    getKey (attachCredentials "authid" "remoteip" (buildCompulifeParams exampleQuoteBody))
      "LANGUAGE" = none := by
  decide

/-- C5 — corrected.  A nonempty action string outside the recognized set
yields an immediate 400 with no downstream call in both routers; the
`part_000` router's body carries the action value and the enumerated
`available` list, while the `server.js` router's body carries only the
message `Unknown action: <action>`, without any enumerated list.  (An
empty-string action is falsy and pings instead; see the counterexample.) -/
theorem c5_unknown_action (a r : String) (body : Obj) (s : String)
    (hs : getKey body "action" = some (.vStr s)) (hne : s ≠ "") :
    (s ∉ proxyAvailable →
      routeProxy a r body = .err400Enum (.vStr s) proxyAvailable ∧
      statusOf (routeProxy a r body) = some 400 ∧
      downstreamOf (routeProxy a r body) = none) ∧
    (s ∉ serverActions →
      handlePost a r body = .err400 ("Unknown action: " ++ s) ∧
      statusOf (handlePost a r body) = some 400 ∧
      downstreamOf (handlePost a r body) = none) := by
  have hact : actionOf body = .vStr s := by
    rw [actionOf, hs]
    simp [jsOr, JsVal.truthy, hne]
  constructor
  · intro hmem
    simp only [proxyAvailable, List.mem_cons, List.mem_singleton, not_or] at hmem
    obtain ⟨n1, n2, n3, n4, n5, n6, n7, n8, n9, n10⟩ := hmem
    have houtcome : routeProxy a r body = .err400Enum (.vStr s) proxyAvailable := by
      unfold routeProxy
      rw [hact]
      simp [n1, n2, n3, n4, n5, n6, n7, n8, n9, n10]
    exact ⟨houtcome, by rw [houtcome]; rfl, by rw [houtcome]; rfl⟩
  · intro hmem
    simp only [serverActions, List.mem_cons, List.mem_singleton, not_or] at hmem
    obtain ⟨m1, m2, m3, m4, m5, m6⟩ := hmem
    have houtcome : handlePost a r body = .err400 ("Unknown action: " ++ s) := by
      unfold handlePost
      rw [hact]
      simp [m1, m2, m3, m4, m5, m6, JsVal.toStr]
    exact ⟨houtcome, by rw [houtcome]; rfl, by rw [houtcome]; rfl⟩

/-- C5 — witness at the spec's example input `{action: "bogus"}`. -/
theorem c5_unknown_action_witness :
    "bogus" ∉ proxyAvailable ∧ "bogus" ∉ serverActions ∧
    routeProxy "a" "r" [("action", JsVal.vStr "bogus")] =
      .err400Enum (.vStr "bogus") proxyAvailable ∧
    handlePost "a" "r" [("action", JsVal.vStr "bogus")] =
      .err400 "Unknown action: bogus" := by
  have h := c5_unknown_action "a" "r" [("action", JsVal.vStr "bogus")] "bogus"
    rfl (by decide)
  exact ⟨by decide, by decide, (h.1 (by decide)).1, (h.2 (by decide)).1⟩

/-- C5 — counterexample to the claim as stated: the `server.js` router's
400 body for `{action: "bogus"}` is only the message, with no enumerated
valid-action list; and the empty string — a string outside the recognized
set — does not produce the 400 response at all, but the 200 ping. -/
theorem c5_counterexample :
    handlePost "a" "r" [("action", JsVal.vStr "bogus")] =
      .err400 "Unknown action: bogus" ∧
    enumeratedOf (handlePost "a" "r" [("action", JsVal.vStr "bogus")]) = none ∧
    "" ∉ proxyAvailable ∧ "" ∉ serverActions ∧
    handlePost "a" "r" [("action", JsVal.vStr "")] = .pingOk ∧
    routeProxy "a" "r" [("action", JsVal.vStr "")] = .pingOk ∧
    statusOf (handlePost "a" "r" [("action", JsVal.vStr "")]) = some 200 := by
  decide

/-- C10 — confirmed.  Any inbound body whose `action` is absent or falsy
(treated as `undefined`, `null`, `""`, `false` or `0` by the `|| "ping"`
fallback) pings: both routers answer 200 immediately, with no downstream
call; in particular `action: ""` does not produce the unknown-action 400. -/
theorem c10_falsy_action_pings (a r : String) (body : Obj)
    (h : getKey body "action" = none ∨
      ∃ v, getKey body "action" = some v ∧ v.truthy = false) :
    handlePost a r body = .pingOk ∧ routeProxy a r body = .pingOk ∧
    statusOf (handlePost a r body) = some 200 ∧
    downstreamOf (handlePost a r body) = none ∧
    statusOf (routeProxy a r body) = some 200 ∧
    downstreamOf (routeProxy a r body) = none := by
  have hact : actionOf body = .vStr "ping" := by
    rcases h with h | ⟨v, hv, hf⟩
    · rw [actionOf, h]; rfl
    · rw [actionOf, hv]; simp [jsOr, hf]
  have h1 : handlePost a r body = .pingOk := by
    unfold handlePost
    rw [hact]
    simp
  have h2 : routeProxy a r body = .pingOk := by
    unfold routeProxy
    rw [hact]
    simp
  exact ⟨h1, h2, by rw [h1]; rfl, by rw [h1]; rfl, by rw [h2]; rfl, by rw [h2]; rfl⟩

/-- C10 — witness: the empty-string action pings. -/
theorem c10_falsy_action_pings_witness :
    getKey [("action", JsVal.vStr "")] "action" = some (JsVal.vStr "") ∧
    (JsVal.vStr "").truthy = false ∧
    handlePost "x" "y" [("action", JsVal.vStr "")] = .pingOk :=
  ⟨rfl, rfl,
    (c10_falsy_action_pings "x" "y" [("action", JsVal.vStr "")]
      (Or.inr ⟨JsVal.vStr "", rfl, rfl⟩)).1⟩

/-- C6 — confirmed.  Both Compulife dispatchers return exactly the parsed
structure when the body text parses, and otherwise exactly the wrapper
carrying the original body text unmodified together with the downstream
status; the parse failure is consumed (the functions are total), never
rethrown. -/
theorem c6_dispatch_roundtrip (parse : String → Option Json) (resp : FetchResponse) :
    (∀ j, parse resp.text = some j →
      proxyPublicResult parse resp = .structured j ∧
      proxyPrivateResult parse resp = .structured j) ∧
    (parse resp.text = none →
      proxyPublicResult parse resp = .rawWrap resp.text resp.status ∧
      proxyPrivateResult parse resp = .rawWrap resp.text resp.status) := by
  constructor
  · intro j hj
    unfold proxyPublicResult proxyPrivateResult
    rw [hj]
    exact ⟨rfl, rfl⟩
  · intro hn
    unfold proxyPublicResult proxyPrivateResult
    rw [hn]
    exact ⟨rfl, rfl⟩

/-- C6 — witness: a parsable body round-trips to its structure; an
unparsable body round-trips to the raw wrapper with the original text and
status. -/
theorem c6_dispatch_roundtrip_witness :
    parseNullOnly "null" = some Json.jNull ∧
    proxyPublicResult parseNullOnly ⟨200, "null"⟩ = .structured Json.jNull ∧
    parseNullOnly "<!doctype html>" = none ∧
    proxyPrivateResult parseNullOnly ⟨502, "<!doctype html>"⟩ =
      .rawWrap "<!doctype html>" 502 := by
  refine ⟨rfl, ?_, rfl, ?_⟩
  · exact ((c6_dispatch_roundtrip parseNullOnly ⟨200, "null"⟩).1 Json.jNull rfl).1
  · exact ((c6_dispatch_roundtrip parseNullOnly ⟨502, "<!doctype html>"⟩).2 rfl).2

/-- The health-field whitelist is disjoint from the base quote whitelist
and from the defaulted keys, so the extension stage can never overwrite a
binding the base translation produced. -/
theorem health_disjoint :
    ∀ k ∈ healthFields,
      k ∉ quoteRequiredFields ++ quoteOptionalFields ∧ defaultFor k = none := by
  decide

/-- C7 — confirmed.  The health-analyzer translation extends the base
quote translation: every key the base output binds is bound to the
identical value in the composed output (the composed builder runs the base
builder first and only adds health fields, which are disjoint from the
base whitelist and defaults). -/
theorem c7_health_superset (body : Obj) (k : String) (v : JsVal)
    (h : getKey (buildQuoteParams body) k = some v) :
    getKey (buildHealthParams body) k = some v := by
  unfold buildHealthParams
  by_cases hm : k ∈ healthFields
  · exfalso
    have hd := health_disjoint k hm
    rw [buildQuoteParams_getKey] at h
    unfold quoteExpected at h
    rw [hd.2, copiedAt, if_neg hd.1] at h
    exact Option.noConfusion h
  · rw [copyFields_getKey_of_not_mem body _ hm]
    exact h

/-- C7 — witness: the defaulted rating code of the base output persists
identically in the composed output. -/
theorem c7_health_superset_witness :
    getKey (buildQuoteParams []) "CompRating" = some (JsVal.vStr "4") ∧
    getKey (buildHealthParams []) "CompRating" = some (JsVal.vStr "4") :=
  ⟨by decide, c7_health_superset [] "CompRating" (JsVal.vStr "4") (by decide)⟩

/-- C8 — corrected.  The `/anthropic` handler does check its credential
synchronously: with the AI key empty it answers 500 naming the missing
configuration, for every body, before any outbound call.  But not every
credentialed endpoint does so: the Compulife private path performs no
check — with an empty authorization id a quote action still issues the
downstream call, embedding the empty credential. -/
theorem c8_credential_guard (body : Obj) (remoteIp : String) :
    anthropicHandler "" body = .notConfigured ∧
    anthropicImmediate (anthropicHandler "" body) =
      some (500, "ANTHROPIC_API_KEY not configured") ∧
    (getKey body "action" = some (.vStr "quote-compare") →
      handlePost "" remoteIp body =
        .call (.privateGet "/sidebyside"
          (attachCredentials "" remoteIp (buildCompulifeParams body))) ∧
      getKey (attachCredentials "" remoteIp (buildCompulifeParams body))
        "COMPULIFEAUTHORIZATIONID" = some (.vStr "")) := by
  have h0 : anthropicHandler "" body = .notConfigured := by
    unfold anthropicHandler
    rw [if_pos rfl]
  refine ⟨h0, by rw [h0]; rfl, fun ha => ⟨?_, ?_⟩⟩
  · have hact : actionOf body = .vStr "quote-compare" := by
      rw [actionOf, ha]; rfl
    unfold handlePost
    rw [hact]
    rfl
  · exact (attachCredentials_getKey_creds "" remoteIp _
      (bc_no_creds body).1 (bc_no_creds body).2).1

/-- C8 — witness at the example quote body. -/
theorem c8_credential_guard_witness :
    getKey exampleQuoteBody "action" = some (JsVal.vStr "quote-compare") ∧
    anthropicHandler "" exampleQuoteBody = .notConfigured ∧
    handlePost "" "162.220.232.99" exampleQuoteBody =
      .call (.privateGet "/sidebyside"
        (attachCredentials "" "162.220.232.99"
          (buildCompulifeParams exampleQuoteBody))) := by
  have h := c8_credential_guard exampleQuoteBody "162.220.232.99"
  exact ⟨rfl, h.1, (h.2.2 rfl).1⟩

/-- C8 — counterexample to the claim as stated: the Compulife quote
endpoint requires the authorization credential downstream, yet with that
credential empty the handler does not answer 500 — it attempts the
downstream call, whose payload carries the empty credential. -/
theorem c8_counterexample :
    handlePost "" "162.220.232.99" exampleQuoteBody =
      .call (.privateGet "/sidebyside"
        (attachCredentials "" "162.220.232.99"
          (buildCompulifeParams exampleQuoteBody))) ∧
    statusOf (handlePost "" "162.220.232.99" exampleQuoteBody) = none ∧
    downstreamOf (handlePost "" "162.220.232.99" exampleQuoteBody) ≠ none ∧
    getKey (attachCredentials "" "162.220.232.99"
        (buildCompulifeParams exampleQuoteBody))
      "COMPULIFEAUTHORIZATIONID" = some (JsVal.vStr "") := by
  decide

/-- C9 — confirmed.  Both CRM creation endpoints merge the configured
location id after the spread of the client body, so the outbound body
always binds `locationId` to the server value, identically for any two
inbound bodies (in particular for two bodies differing only in a
client-supplied `locationId`). -/
theorem c9_location_pinned (locationId : String) (b1 b2 : Obj) :
    getKey (ghlContactsOutbound locationId b1) "locationId" =
      some (.vStr locationId) ∧
    getKey (ghlOpportunitiesOutbound locationId b1) "locationId" =
      some (.vStr locationId) ∧
    getKey (ghlContactsOutbound locationId b1) "locationId" =
      getKey (ghlContactsOutbound locationId b2) "locationId" ∧
    getKey (ghlOpportunitiesOutbound locationId b1) "locationId" =
      getKey (ghlOpportunitiesOutbound locationId b2) "locationId" := by
  have h : ∀ b : Obj,
      getKey (setKey (spreadOnto b []) "locationId" (.vStr locationId))
        "locationId" = some (.vStr locationId) :=
    fun b => getKey_setKey_self _ _ _
  exact ⟨h b1, h b1, (h b1).trans (h b2).symm, (h b1).trans (h b2).symm⟩

end CompulifeProxy
